import Mathlib

/-!
Verification of the fhevm-react-template repository against its
natural-language specification.

The development shallowly embeds:
* the SDK core (`packages/fhevm-sdk/src/core`): input validation,
  little-endian byte packing, the mock encryption step, and the
  process-wide client singleton (`initFhevm` / `getFhevmClient`);
* the React context layer (`FhevmProvider` / `useFhevmContext` / `useFhevm`);
* the `PrivateRentalMatching` Solidity contract embedded in
  `contracts/README.md` (listings, requests, matches, pause flag),
  as a state-transition system with an explicit reachability relation.

JS `BigInt` bitwise operations are two's-complement on arbitrary-precision
integers, so `v & 0xFFn` is `Int.emod v 256` and `v >> 8n` is
`Int.ediv v 256` (floor = Euclidean division for a positive divisor).
-/

namespace FhevmSdk

/-- The eight declared value-type tags of the SDK (`types/index.ts`). -/
inductive FheType where
  | euint8
  | euint16
  | euint32
  | euint64
  | euint128
  | euint256
  | ebool
  | eaddress
deriving DecidableEq, Repr

/-- `getByteLengthForType` from `core/index.ts`: the byte width used by
`valueToBytes` (the `default` arm of the TS `switch` returns 32, which is
what `eaddress` falls into). -/
def getByteLengthForType : FheType → Nat
  | .euint8 => 1
  | .ebool => 1
  | .euint16 => 2
  | .euint32 => 4
  | .euint64 => 8
  | .euint128 => 16
  | .euint256 => 32
  | .eaddress => 32

/-- The six unsigned-integer tags among the declared types. -/
def isUintType : FheType → Bool
  | .euint8 | .euint16 | .euint32 | .euint64 | .euint128 | .euint256 => true
  | .ebool | .eaddress => false

/-- A JS `number | bigint | boolean` value as received by `encrypt`.
Only integral numbers are representable on the numeric side, which covers
every value the validation/serialization path can process. -/
inductive JsValue where
  | int (v : Int)
  | bool (b : Bool)
deriving DecidableEq, Repr

/-- `BigInt(value)` coercion used by `validateInput` and `valueToBytes`
(`BigInt(true) = 1n`, `BigInt(false) = 0n`). -/
def toBigInt : JsValue → Int
  | .int v => v
  | .bool b => if b then 1 else 0

/-- JS truthiness of a `number | bigint | boolean` value, used by the
`value ? 1 : 0` expression in `valueToBytes`. -/
def jsTruthy : JsValue → Bool
  | .int v => v != 0
  | .bool b => b

/-- `validateInput` from `core/index.ts`.  `ebool` demands a boolean
(`typeof value === 'boolean'`); the `switch` range-checks the four small
widths; every other tag — `euint128`, `euint256` and `eaddress` — falls
through to `default: return true`. -/
def validateInput (value : JsValue) (type : FheType) : Bool :=
  match type with
  | .ebool => match value with | .bool _ => true | .int _ => false
  | t =>
    let numValue := toBigInt value
    match t with
    | .euint8 => decide (0 ≤ numValue ∧ numValue ≤ 255)
    | .euint16 => decide (0 ≤ numValue ∧ numValue ≤ 65535)
    | .euint32 => decide (0 ≤ numValue ∧ numValue ≤ 4294967295)
    | .euint64 => decide (0 ≤ numValue ∧ numValue ≤ 18446744073709551615)
    | _ => true

/-- The serialization loop of `valueToBytes`:
`bytes[i] = Number(tempValue & 0xFFn); tempValue >>= 8n`, run `n` times.
On `Int` here, `%` is Euclidean mod and `/` is Euclidean division, which
agree with JS `BigInt`'s two's-complement `& 0xFFn` and arithmetic
`>> 8n` for the positive constants used. -/
def leBytesLoop : Int → Nat → List Nat
  | _, 0 => []
  | v, n + 1 => (v % 256).toNat :: leBytesLoop (v / 256) n

/-- `valueToBytes` from `core/index.ts`: one byte for `ebool`
(`value ? 1 : 0`), otherwise the little-endian loop over
`getByteLengthForType` bytes of `BigInt(value)`. -/
def valueToBytes (value : JsValue) (type : FheType) : List Nat :=
  match type with
  | .ebool => [if jsTruthy value then 1 else 0]
  | t => leBytesLoop (toBigInt value) (getByteLengthForType t)

/-- Printable name of a type tag (the TS string literal), appended to the
mock ciphertext by `performEncryption` and used in error messages. -/
def typeName : FheType → String
  | .euint8 => "euint8"
  | .euint16 => "euint16"
  | .euint32 => "euint32"
  | .euint64 => "euint64"
  | .euint128 => "euint128"
  | .euint256 => "euint256"
  | .ebool => "ebool"
  | .eaddress => "eaddress"

/-- One lowercase hex digit, as produced by `Number.prototype.toString(16)`. -/
def hexDigit : Nat → Char
  | 0 => '0' | 1 => '1' | 2 => '2' | 3 => '3'
  | 4 => '4' | 5 => '5' | 6 => '6' | 7 => '7'
  | 8 => '8' | 9 => '9' | 10 => 'a' | 11 => 'b'
  | 12 => 'c' | 13 => 'd' | 14 => 'e' | _ => 'f'

/-- `b.toString(16).padStart(2, '0')` for a byte `b < 256`. -/
def byteToHex (b : Nat) : String :=
  String.mk [hexDigit (b / 16), hexDigit (b % 16)]

/-- `performEncryption` from `core/index.ts`: the mock "ciphertext" is
`0x` + hex of the bytes + the type tag.  No cryptography happens. -/
def performEncryption (bytes : List Nat) (type : FheType) : String :=
  "0x" ++ String.join (bytes.map byteToHex) ++ typeName type

/-- An `EncryptedValue` (`types/index.ts`): the ciphertext string paired
with its declared type. -/
structure EncryptedValue where
  ciphertext : String
  type : FheType
deriving DecidableEq, Repr

/-- `encrypt` from `core/index.ts`: validates, serializes, and produces the
mock ciphertext; a validation failure throws
`Invalid input for type ${type}`. -/
def encrypt (value : JsValue) (type : FheType) : Except String EncryptedValue :=
  if validateInput value type then
    Except.ok { ciphertext := performEncryption (valueToBytes value type) type, type := type }
  else
    Except.error ("Invalid input for type " ++ typeName type)

/-- Little-endian interpretation of a byte list (the decoding direction of
the spec's round-trip property; the source has no byte-level decoder, its
gateway returns decimal strings). -/
def decodeBytesLE : List Nat → Nat
  | [] => 0
  | b :: rest => b + 256 * decodeBytesLE rest

/-- Modelled from the spec: "a little-endian fixed-width byte sequence
(width derived from the declared type)" — byte `i` of the encoding of `v`
is `v / 256^i % 256`.  Stated independently of the source so that
`valueToBytes` can be compared against it. -/
def leFixedWidthSpec (v width : Nat) : List Nat :=
  (List.range width).map (fun i => v / 256 ^ i % 256)

/-- The serialization loop on nonnegative input, at the `Nat` level. -/
def leBytesLoopNat : Nat → Nat → List Nat
  | _, 0 => []
  | v, n + 1 => v % 256 :: leBytesLoopNat (v / 256) n

/-- `FhevmConfig` from `types/index.ts` (network name, gateway URL,
optional contract addresses, optional chain id, optional debug flag). -/
structure FhevmConfig where
  network : String
  gatewayUrl : String
  aclAddress : Option String
  kmsVerifierAddress : Option String
  chainId : Option Nat
  debug : Bool
deriving DecidableEq, Repr

/-- `FhevmClient` from `types/index.ts`.  The four method closures of the
TS object (`encrypt`, `decrypt`, `publicDecrypt`, `userDecrypt`) close
over exactly `config`, so the record of `config` and the mutable
`isInitialized` flag carries the client's entire observable state. -/
structure FhevmClient where
  config : FhevmConfig
  isInitialized : Bool
deriving DecidableEq, Repr

/-- `getFhevmClient` from `core/index.ts`: returns the module-level
`globalInstance` (the process-wide singleton), threaded explicitly here. -/
def getFhevmClient (globalInstance : Option FhevmClient) : Option FhevmClient :=
  globalInstance

/-- The body of `initFhevm` past the early return: build a client,
probe `GET {gatewayUrl}/health` (its outcome is the `gatewayReachable`
argument), and on success flip `isInitialized` and store the client as
the singleton; on failure throw and leave `globalInstance` untouched.
Returns (call result, new `globalInstance`). -/
def initFhevmAttempt (globalInstance : Option FhevmClient) (gatewayReachable : Bool)
    (config : FhevmConfig) : Except String FhevmClient × Option FhevmClient :=
  if gatewayReachable then
    let client : FhevmClient := { config := config, isInitialized := true }
    (Except.ok client, some client)
  else
    (Except.error ("Failed to initialize FHEVM SDK: Error: Cannot connect to Gateway at "
        ++ config.gatewayUrl),
      globalInstance)

/-- `initFhevm` from `core/index.ts`: if an initialized singleton exists it
is returned unchanged; otherwise the initialization attempt runs. -/
def initFhevm (globalInstance : Option FhevmClient) (gatewayReachable : Bool)
    (config : FhevmConfig) : Except String FhevmClient × Option FhevmClient :=
  match globalInstance with
  | some c =>
    if c.isInitialized then (Except.ok c, some c)
    else initFhevmAttempt globalInstance gatewayReachable config
  | none => initFhevmAttempt globalInstance gatewayReachable config

/-- The value published through React context by `FhevmProvider`
(`FhevmContextValue` in the provider module): the `client` and `error`
fields are nullable, rendered as `Option`. -/
structure FhevmContextValue where
  client : Option FhevmClient
  isInitialized : Bool
  isInitializing : Bool
  errorVal : Option String
deriving DecidableEq, Repr

/-- The default value passed to `createContext` in the provider module:
an ordinary (non-null) object `{client: null, isInitialized: false,
isInitializing: false, error: null}`. -/
def fhevmContextDefault : Option FhevmContextValue :=
  some { client := none, isInitialized := false, isInitializing := false, errorVal := none }

/-- React's `useContext(FhevmContext)`: the provider's published value when
the caller sits inside a provider subtree (`providerValue = some v`),
otherwise the default value the context was created with.  `none` models
the JS null/undefined that `!context` would detect. -/
def useContextJs (providerValue : Option FhevmContextValue) : Option FhevmContextValue :=
  match providerValue with
  | some v => some v
  | none => fhevmContextDefault

/-- `useFhevmContext` from the provider module: reads the context and
throws `useFhevmContext must be used within FhevmProvider` when the read
value is nullish (the only falsy possibility for this object-typed
value). -/
def useFhevmContext (providerValue : Option FhevmContextValue) : Except String FhevmContextValue :=
  match useContextJs providerValue with
  | none => Except.error "useFhevmContext must be used within FhevmProvider"
  | some context => Except.ok context

/-- `useFhevm` from `react/hooks/useFhevm.ts`: destructures the context
value and returns the same four fields. -/
def useFhevm (providerValue : Option FhevmContextValue) : Except String FhevmContextValue :=
  useFhevmContext providerValue

/-- A concrete configuration used by the witnesses. -/
def demoCfg : FhevmConfig :=
  { network := "sepolia", gatewayUrl := "https://gateway.example",
    aclAddress := none, kmsVerifierAddress := none, chainId := none,
    debug := false }

end FhevmSdk

namespace Rental

/-!
Shallow embedding of the `PrivateRentalMatching` contract
(`contracts/README.md`).  Addresses are natural numbers with `0` playing
`address(0)`; Solidity mappings are total functions whose out-of-range
entries hold the zero-initialized struct; a reverting call is
`Except.error` carrying the require message, and the EVM's
all-or-nothing transaction semantics is `runTx`, which keeps the old
state on error.  FHE ciphertext handles (`euint32`/`euint8` fields) are
carried as the numbers they were built from; the contract never branches
on them, so this does not influence any control flow.  `FHE.allow*`
calls and the four encrypted comparison results computed by
`createMatch` touch no contract storage and are omitted.
-/

abbrev Address := Nat

/-- `PropertyListing` struct (field order as in the source). -/
structure PropertyListing where
  encryptedPrice : Nat
  encryptedBedrooms : Nat
  encryptedPostalCode : Nat
  encryptedPropertyType : Nat
  isActive : Bool
  landlord : Address
  timestamp : Nat
  isMatched : Bool
deriving DecidableEq, Repr

/-- `RentalRequest` struct. -/
structure RentalRequest where
  encryptedMaxBudget : Nat
  encryptedMinBedrooms : Nat
  encryptedPreferredPostalCode : Nat
  encryptedPreferredPropertyType : Nat
  isActive : Bool
  tenant : Address
  timestamp : Nat
  isMatched : Bool
deriving DecidableEq, Repr

/-- `Match` struct. -/
structure Match where
  listingId : Nat
  requestId : Nat
  landlord : Address
  tenant : Address
  timestamp : Nat
  isConfirmed : Bool
  landlordConfirmed : Bool
  tenantConfirmed : Bool
deriving DecidableEq, Repr

/-- Zero-initialized `PropertyListing`, the value a Solidity mapping holds
at any key never written. -/
def defaultListing : PropertyListing :=
  { encryptedPrice := 0, encryptedBedrooms := 0, encryptedPostalCode := 0,
    encryptedPropertyType := 0, isActive := false, landlord := 0,
    timestamp := 0, isMatched := false }

/-- Zero-initialized `RentalRequest`. -/
def defaultRequest : RentalRequest :=
  { encryptedMaxBudget := 0, encryptedMinBedrooms := 0,
    encryptedPreferredPostalCode := 0, encryptedPreferredPropertyType := 0,
    isActive := false, tenant := 0, timestamp := 0, isMatched := false }

/-- Zero-initialized `Match`. -/
def defaultMatch : Match :=
  { listingId := 0, requestId := 0, landlord := 0, tenant := 0,
    timestamp := 0, isConfirmed := false, landlordConfirmed := false,
    tenantConfirmed := false }

/-- The contract's four events. -/
inductive Event where
  | listingCreated (listingId : Nat) (landlord : Address)
  | requestCreated (requestId : Nat) (tenant : Address)
  | matchCreated (matchId listingId requestId : Nat)
  | matchConfirmed (matchId : Nat) (confirmer : Address)
deriving DecidableEq, Repr

/-- The contract's storage, plus the emitted event log. -/
structure State where
  owner : Address
  listingIdCounter : Nat
  requestIdCounter : Nat
  matchCounter : Nat
  kmsGeneration : Nat
  pauserAddresses : List Address
  isPaused : Bool
  decryptionRequestCounter : Nat
  listings : Nat → PropertyListing
  requests : Nat → RentalRequest
  matchesMap : Nat → Match
  userListings : Address → List Nat
  userRequests : Address → List Nat
  events : List Event

/-- Pointwise map update (a Solidity mapping store). -/
def upd {α : Type} (f : Nat → α) (k : Nat) (v : α) : Nat → α :=
  fun i => if i = k then v else f i

/-- `isPauserAddress` mapping: the constructor loop marks exactly the
addresses of the `pauserAddresses` list. -/
def isPauserAddress (s : State) (a : Address) : Bool :=
  s.pauserAddresses.contains a

/-- The constructor: counters start at 1, unpaused, empty storage. -/
def deploy (deployer : Address) (pausers : List Address) (kmsGen : Nat) : State :=
  { owner := deployer
    listingIdCounter := 1
    requestIdCounter := 1
    matchCounter := 1
    kmsGeneration := kmsGen
    pauserAddresses := pausers
    isPaused := false
    decryptionRequestCounter := 0
    listings := fun _ => defaultListing
    requests := fun _ => defaultRequest
    matchesMap := fun _ => defaultMatch
    userListings := fun _ => []
    userRequests := fun _ => []
    events := [] }

/-- Solidity `require(cond, msg)`: continue with `k` when `cond` holds,
revert with `msg` otherwise. -/
def solRequire {α : Type} (cond : Prop) [Decidable cond] (msg : String)
    (k : Except String α) : Except String α :=
  if cond then k else Except.error msg

/-- EVM transaction semantics: a reverted call leaves storage unchanged. -/
def runTx (s : State) (f : State → Except String State) : State :=
  match f s with
  | Except.ok s' => s'
  | Except.error _ => s

/-- The storage writes `createListing` performs when no require reverts
(writes and `ListingCreated` emission in source order; the counter
increments last). -/
def createListingEffect (s : State) (sender : Address)
    (blockTimestamp price bedrooms postalCode propertyType : Nat) : State :=
  { s with
    listings := upd s.listings s.listingIdCounter
      { encryptedPrice := price, encryptedBedrooms := bedrooms,
        encryptedPostalCode := postalCode, encryptedPropertyType := propertyType,
        isActive := true, landlord := sender,
        timestamp := blockTimestamp, isMatched := false },
    userListings := upd s.userListings sender (s.userListings sender ++ [s.listingIdCounter]),
    events := s.events ++ [Event.listingCreated s.listingIdCounter sender],
    listingIdCounter := s.listingIdCounter + 1 }

/-- `createListing` (modifier `whenNotPaused`, then the three requires in
source order, then the writes). -/
def createListing (s : State) (sender : Address)
    (blockTimestamp price bedrooms postalCode propertyType : Nat) :
    Except String State :=
  solRequire (s.isPaused = false) "Contract is paused" <|
  solRequire (0 < price) "Price must be greater than 0" <|
  solRequire (0 < bedrooms ∧ bedrooms ≤ 10) "Invalid bedroom count" <|
  solRequire (1 ≤ propertyType ∧ propertyType ≤ 3) "Invalid property type" <|
  Except.ok (createListingEffect s sender blockTimestamp price bedrooms postalCode propertyType)

/-- The storage writes `createRequest` performs when no require reverts. -/
def createRequestEffect (s : State) (sender : Address)
    (blockTimestamp maxBudget minBedrooms preferredPostalCode preferredPropertyType : Nat) :
    State :=
  { s with
    requests := upd s.requests s.requestIdCounter
      { encryptedMaxBudget := maxBudget, encryptedMinBedrooms := minBedrooms,
        encryptedPreferredPostalCode := preferredPostalCode,
        encryptedPreferredPropertyType := preferredPropertyType,
        isActive := true, tenant := sender,
        timestamp := blockTimestamp, isMatched := false },
    userRequests := upd s.userRequests sender (s.userRequests sender ++ [s.requestIdCounter]),
    events := s.events ++ [Event.requestCreated s.requestIdCounter sender],
    requestIdCounter := s.requestIdCounter + 1 }

/-- `createRequest`. -/
def createRequest (s : State) (sender : Address)
    (blockTimestamp maxBudget minBedrooms preferredPostalCode preferredPropertyType : Nat) :
    Except String State :=
  solRequire (s.isPaused = false) "Contract is paused" <|
  solRequire (0 < maxBudget) "Budget must be greater than 0" <|
  solRequire (0 < minBedrooms ∧ minBedrooms ≤ 10) "Invalid bedroom count" <|
  solRequire (1 ≤ preferredPropertyType ∧ preferredPropertyType ≤ 3) "Invalid property type" <|
  Except.ok (createRequestEffect s sender blockTimestamp maxBudget minBedrooms
    preferredPostalCode preferredPropertyType)

/-- The storage writes `createMatch` performs when no require reverts:
the new `Match` record at the current counter, both matched flags
flipped, the `MatchCreated` emission, and the counter increment. -/
def createMatchEffect (s : State) (_sender : Address)
    (blockTimestamp listingId requestId : Nat) : State :=
  { s with
    matchesMap := upd s.matchesMap s.matchCounter
      { listingId := listingId, requestId := requestId,
        landlord := (s.listings listingId).landlord,
        tenant := (s.requests requestId).tenant,
        timestamp := blockTimestamp,
        isConfirmed := false, landlordConfirmed := false, tenantConfirmed := false },
    listings := upd s.listings listingId { s.listings listingId with isMatched := true },
    requests := upd s.requests requestId { s.requests requestId with isMatched := true },
    events := s.events ++ [Event.matchCreated s.matchCounter listingId requestId],
    matchCounter := s.matchCounter + 1 }

/-- `createMatch` (requires in source order: pause, listing active,
request active, listing unmatched, request unmatched, caller is the
listing's landlord or the request's tenant).  The four FHE comparisons
the source computes are not stored in contract state. -/
def createMatch (s : State) (sender : Address)
    (blockTimestamp listingId requestId : Nat) : Except String State :=
  solRequire (s.isPaused = false) "Contract is paused" <|
  solRequire ((s.listings listingId).isActive = true) "Listing not active" <|
  solRequire ((s.requests requestId).isActive = true) "Request not active" <|
  solRequire ((s.listings listingId).isMatched = false) "Listing already matched" <|
  solRequire ((s.requests requestId).isMatched = false) "Request already matched" <|
  solRequire (sender = (s.listings listingId).landlord ∨ sender = (s.requests requestId).tenant)
    "Not authorized to create this match" <|
  Except.ok (createMatchEffect s sender blockTimestamp listingId requestId)

/-- The `if both flags then isConfirmed := true` tail of `confirmMatch`,
applied to the per-party updated record `m1`. -/
def confirmFlip (m1 : Match) : Match :=
  if m1.landlordConfirmed ∧ m1.tenantConfirmed then { m1 with isConfirmed := true } else m1

/-- The storage writes of the landlord branch of `confirmMatch`. -/
def confirmLandlordEffect (s : State) (sender : Address) (matchId : Nat) : State :=
  { s with
    matchesMap := upd s.matchesMap matchId
      (confirmFlip { s.matchesMap matchId with landlordConfirmed := true }),
    events := s.events ++ [Event.matchConfirmed matchId sender] }

/-- The storage writes of the tenant branch of `confirmMatch`. -/
def confirmTenantEffect (s : State) (sender : Address) (matchId : Nat) : State :=
  { s with
    matchesMap := upd s.matchesMap matchId
      (confirmFlip { s.matchesMap matchId with tenantConfirmed := true }),
    events := s.events ++ [Event.matchConfirmed matchId sender] }

/-- `confirmMatch` (modifier `whenNotPaused`; existence check via
`landlord != address(0)`; the terminal `isConfirmed` check; then the
per-party branch and the flip of `isConfirmed` once both flags hold). -/
def confirmMatch (s : State) (sender : Address) (matchId : Nat) :
    Except String State :=
  solRequire (s.isPaused = false) "Contract is paused" <|
  solRequire ((s.matchesMap matchId).landlord ≠ 0) "Match does not exist" <|
  solRequire ((s.matchesMap matchId).isConfirmed = false) "Match already confirmed" <|
  let m := s.matchesMap matchId
  if sender = m.landlord then
    solRequire (m.landlordConfirmed = false) "Already confirmed by landlord" <|
    Except.ok (confirmLandlordEffect s sender matchId)
  else if sender = m.tenant then
    solRequire (m.tenantConfirmed = false) "Already confirmed by tenant" <|
    Except.ok (confirmTenantEffect s sender matchId)
  else
    Except.error "Not authorized to confirm this match"

/-- View `getUserListings` (no pause gate, no state change). -/
def getUserListings (s : State) (user : Address) : List Nat :=
  s.userListings user

/-- View `getUserRequests`. -/
def getUserRequests (s : State) (user : Address) : List Nat :=
  s.userRequests user

/-- View `getActiveListingsCount`: loop `i` from 1 below
`listingIdCounter`, counting active unmatched listings. -/
def getActiveListingsCount (s : State) : Nat :=
  (List.range' 1 (s.listingIdCounter - 1)).countP
    (fun i => (s.listings i).isActive && !(s.listings i).isMatched)

/-- View `getActiveRequestsCount`. -/
def getActiveRequestsCount (s : State) : Nat :=
  (List.range' 1 (s.requestIdCounter - 1)).countP
    (fun i => (s.requests i).isActive && !(s.requests i).isMatched)

/-- One successful externally-invoked state-changing call.  (A reverted
call leaves storage unchanged, so reverts induce no transition.) -/
inductive Step : State → State → Prop where
  | listing (s : State) (sender : Address) (ts price bedrooms postalCode propertyType : Nat)
      (s' : State) (h : createListing s sender ts price bedrooms postalCode propertyType = Except.ok s') :
      Step s s'
  | request (s : State) (sender : Address) (ts maxBudget minBedrooms postalCode propertyType : Nat)
      (s' : State) (h : createRequest s sender ts maxBudget minBedrooms postalCode propertyType = Except.ok s') :
      Step s s'
  | matched (s : State) (sender : Address) (ts listingId requestId : Nat)
      (s' : State) (h : createMatch s sender ts listingId requestId = Except.ok s') :
      Step s s'
  | confirm (s : State) (sender : Address) (matchId : Nat)
      (s' : State) (h : confirmMatch s sender matchId = Except.ok s') :
      Step s s'

/-- States reachable from some deployment by successful calls. -/
inductive Reachable : State → Prop where
  | deploy (deployer : Address) (pausers : List Address) (kmsGen : Nat) :
      Reachable (deploy deployer pausers kmsGen)
  | step (s s' : State) (hr : Reachable s) (hs : Step s s') : Reachable s'

/-- Inductive invariant: never-written mapping slots hold the default
struct, and a match's overall `isConfirmed` flag equals the conjunction
of the two per-party flags. -/
def Inv (s : State) : Prop :=
  (∀ i, s.listingIdCounter ≤ i → s.listings i = defaultListing) ∧
  (∀ i, s.requestIdCounter ≤ i → s.requests i = defaultRequest) ∧
  (∀ i, s.matchCounter ≤ i → s.matchesMap i = defaultMatch) ∧
  (∀ i, (s.matchesMap i).isConfirmed =
    ((s.matchesMap i).landlordConfirmed && (s.matchesMap i).tenantConfirmed))

/-- Concrete scenario used by the witnesses: deployment by address 100. -/
def demoS0 : State := deploy 100 [] 1

/-- Landlord 1 lists price 2000, 2 bedrooms, postal 12345, type 1. -/
def demoS1 : State := runTx demoS0 (fun s => createListing s 1 0 2000 2 12345 1)

/-- Tenant 2 requests budget 2500, 2 bedrooms, postal 12345, type 1. -/
def demoS2 : State := runTx demoS1 (fun s => createRequest s 2 0 2500 2 12345 1)

/-- Landlord 1 matches listing 1 with request 1 (match id 1). -/
def demoS3 : State := runTx demoS2 (fun s => createMatch s 1 0 1 1)

/-- Landlord 1 confirms match 1. -/
def demoS4 : State := runTx demoS3 (fun s => confirmMatch s 1 1)

/-- Tenant 2 confirms match 1; the match becomes confirmed. -/
def demoS5 : State := runTx demoS4 (fun s => confirmMatch s 2 1)

/-- A further unrelated listing created after the confirmed match. -/
def demoS6 : State := runTx demoS5 (fun s => createListing s 7 9 1500 3 999 2)

/-- `demoS2` with the pause flag forced on (the shown source has no
`pause()` entry point; the flag itself exists and gates the modifiers). -/
def demoPaused : State := { demoS2 with isPaused := true }

end Rental

namespace FhevmSdk

theorem leBytesLoop_eq_nat (v : Int) (hv : 0 ≤ v) (n : Nat) :
    leBytesLoop v n = leBytesLoopNat v.toNat n := by
  induction n generalizing v with
  | zero => rfl
  | succ n ih =>
    have h1 : (v % 256).toNat = v.toNat % 256 := by omega
    have h2 : 0 ≤ v / 256 := by omega
    have h3 : (v / 256).toNat = v.toNat / 256 := by omega
    simp only [leBytesLoop, leBytesLoopNat, h1, ih _ h2, h3]

theorem leBytesLoopNat_eq_spec (v n : Nat) :
    leBytesLoopNat v n = leFixedWidthSpec v n := by
  induction n generalizing v with
  | zero => rfl
  | succ n ih =>
    rw [leFixedWidthSpec, List.range_succ_eq_map, List.map_cons, List.map_map]
    rw [leBytesLoopNat, ih, leFixedWidthSpec]
    simp only [pow_zero, Nat.div_one]
    congr 1
    apply List.map_congr_left
    intro i _
    simp only [Function.comp_apply]
    rw [Nat.div_div_eq_div_mul]
    congr 1
    rw [pow_succ']

theorem decode_leBytesLoopNat (v n : Nat) :
    decodeBytesLE (leBytesLoopNat v n) = v % 256 ^ n := by
  induction n generalizing v with
  | zero => simp [leBytesLoopNat, decodeBytesLE, Nat.mod_one]
  | succ n ih =>
    rw [leBytesLoopNat, decodeBytesLE, ih, pow_succ', Nat.mod_mul]

theorem leBytesLoopNat_length (v n : Nat) : (leBytesLoopNat v n).length = n := by
  induction n generalizing v with
  | zero => rfl
  | succ n ih => simp [leBytesLoopNat, ih]

theorem validateInput_uint_in_range (t : FheType) (ht : isUintType t = true)
    (v : Int) (hv : 0 ≤ v) (hr : v < 2 ^ (8 * getByteLengthForType t)) :
    validateInput (JsValue.int v) t = true := by
  cases t <;> simp_all [isUintType, validateInput, toBigInt, getByteLengthForType] <;> omega

end FhevmSdk

namespace FhevmSdk

theorem valueToBytes_int (t : FheType) (hne : t ≠ FheType.ebool) (v : Int) :
    valueToBytes (JsValue.int v) t = leBytesLoop v (getByteLengthForType t) := by
  cases t <;> simp_all [valueToBytes, toBigInt]

theorem pow_width_nat (t : FheType) (v : Int) (hv : 0 ≤ v)
    (hr : v < 2 ^ (8 * getByteLengthForType t)) :
    v.toNat < 256 ^ getByteLengthForType t := by
  have h2 : ((256 : Nat) ^ getByteLengthForType t : Int) = 2 ^ (8 * getByteLengthForType t) := by
    rw [pow_mul]
    push_cast
    norm_num
  omega

/-- Claim C1: for every declared unsigned-integer type `T` and every value
`v` in `T`'s range, `encrypt(v, T)` succeeds, `valueToBytes` produces
exactly the little-endian fixed-width encoding of `v` (width
`getByteLengthForType T`), and the little-endian interpretation of those
bytes recovers `v` exactly. -/
theorem encrypt_uint_roundtrip (t : FheType) (ht : isUintType t = true) (v : Int)
    (hv : 0 ≤ v) (hr : v < 2 ^ (8 * getByteLengthForType t)) :
    (encrypt (JsValue.int v) t).isOk = true ∧
    valueToBytes (JsValue.int v) t = leFixedWidthSpec v.toNat (getByteLengthForType t) ∧
    (valueToBytes (JsValue.int v) t).length = getByteLengthForType t ∧
    (decodeBytesLE (valueToBytes (JsValue.int v) t) : Int) = v := by
  have hne : t ≠ FheType.ebool := by
    intro h
    subst h
    simp [isUintType] at ht
  have hval := validateInput_uint_in_range t ht v hv hr
  have hbytes : valueToBytes (JsValue.int v) t = leBytesLoopNat v.toNat (getByteLengthForType t) := by
    rw [valueToBytes_int t hne v, leBytesLoop_eq_nat v hv]
  have hlt := pow_width_nat t v hv hr
  refine ⟨?_, ?_, ?_, ?_⟩
  · simp [encrypt, hval, Except.isOk, Except.toBool]
  · rw [hbytes, leBytesLoopNat_eq_spec]
  · rw [hbytes, leBytesLoopNat_length]
  · rw [hbytes, decode_leBytesLoopNat, Nat.mod_eq_of_lt hlt]
    exact_mod_cast Int.toNat_of_nonneg hv

/-- Witness for C1 at `v = 3735928559`, `T = euint32`. -/
theorem encrypt_uint_roundtrip_witness :
    (encrypt (JsValue.int 3735928559) FheType.euint32).isOk = true ∧
    valueToBytes (JsValue.int 3735928559) FheType.euint32 =
      leFixedWidthSpec ((3735928559 : Int)).toNat (getByteLengthForType FheType.euint32) ∧
    (valueToBytes (JsValue.int 3735928559) FheType.euint32).length =
      getByteLengthForType FheType.euint32 ∧
    (decodeBytesLE (valueToBytes (JsValue.int 3735928559) FheType.euint32) : Int) = 3735928559 :=
  encrypt_uint_roundtrip FheType.euint32 rfl 3735928559 (by decide) (by decide)

/-- Counterexample to claim C2 as stated: `2^128` is outside the
`euint128` range, yet `encrypt` succeeds, because `validateInput` only
range-checks widths 8/16/32/64 and `euint128`/`euint256` fall into the
`default: return true` arm of its `switch`. -/
theorem encrypt_euint128_no_range_check :
    (encrypt (JsValue.int (2 ^ 128)) FheType.euint128).isOk = true := by
  decide

/-- Claim C2 amended: for the four validated widths (8/16/32/64) an
out-of-range value makes `encrypt` fail with the validation error; for
`euint128` and `euint256` no range check is performed and `encrypt`
succeeds for every integer value. -/
theorem encrypt_range_validation (t : FheType) (v : Int) :
    ((t = FheType.euint8 ∨ t = FheType.euint16 ∨ t = FheType.euint32 ∨ t = FheType.euint64) →
      (v < 0 ∨ 2 ^ (8 * getByteLengthForType t) ≤ v) →
      encrypt (JsValue.int v) t = Except.error ("Invalid input for type " ++ typeName t)) ∧
    ((t = FheType.euint128 ∨ t = FheType.euint256) →
      (encrypt (JsValue.int v) t).isOk = true) := by
  constructor
  · rintro (rfl | rfl | rfl | rfl) h <;>
    · norm_num [getByteLengthForType] at h
      simp only [encrypt, validateInput, toBigInt]
      rw [if_neg (by simp only [decide_eq_true_eq]; omega)]
  · rintro (rfl | rfl) <;> simp [encrypt, validateInput, Except.isOk, Except.toBool]

/-- Witness for the amended C2: `256` is rejected for `euint8`; `-5` is
accepted for `euint128`. -/
theorem encrypt_range_validation_witness :
    encrypt (JsValue.int 256) FheType.euint8 =
      Except.error ("Invalid input for type " ++ typeName FheType.euint8) ∧
    (encrypt (JsValue.int (-5)) FheType.euint128).isOk = true :=
  ⟨(encrypt_range_validation FheType.euint8 256).1 (Or.inl rfl) (by decide),
   (encrypt_range_validation FheType.euint128 (-5)).2 (Or.inl rfl)⟩

/-- Claim C7: after any successful `initFhevm` call that returned client
`c` and left singleton state `g'`, a second `initFhevm` call — with any
gateway reachability and any configuration, in particular with a
reachable gateway — returns the very same client `c` and leaves the
singleton untouched (idempotent re-initialization). -/
theorem initFhevm_idempotent (g g' : Option FhevmClient) (r1 : Bool)
    (cfg1 : FhevmConfig) (c : FhevmClient)
    (h : initFhevm g r1 cfg1 = (Except.ok c, g')) (r2 : Bool) (cfg2 : FhevmConfig) :
    initFhevm g' r2 cfg2 = (Except.ok c, g') := by
  have hg : g' = some c ∧ c.isInitialized = true := by
    cases g with
    | none =>
      cases r1 with
      | true =>
        have h' : (Except.ok (⟨cfg1, true⟩ : FhevmClient),
            some (⟨cfg1, true⟩ : FhevmClient)) = (Except.ok c, g') := h
        injection h' with h1 h2
        injection h1 with h1
        subst h1
        exact ⟨h2.symm, rfl⟩
      | false => exact absurd h (by simp [initFhevm, initFhevmAttempt])
    | some c0 =>
      simp only [initFhevm] at h
      by_cases hc : c0.isInitialized = true
      · rw [if_pos hc] at h
        injection h with h1 h2
        injection h1 with h1
        subst h1
        exact ⟨h2.symm, hc⟩
      · rw [if_neg hc] at h
        cases r1 with
        | true =>
          have h' : (Except.ok (⟨cfg1, true⟩ : FhevmClient),
              some (⟨cfg1, true⟩ : FhevmClient)) = (Except.ok c, g') := h
          injection h' with h1 h2
          injection h1 with h1
          subst h1
          exact ⟨h2.symm, rfl⟩
        | false => exact absurd h (by simp [initFhevmAttempt])
  rw [hg.1]
  simp [initFhevm, hg.2]

/-- Witness for C7: first call with no singleton and a reachable gateway,
second call again with a reachable gateway, returns the identical client. -/
theorem initFhevm_idempotent_witness :
    initFhevm (some { config := demoCfg, isInitialized := true }) true demoCfg =
      (Except.ok { config := demoCfg, isInitialized := true },
        some { config := demoCfg, isInitialized := true }) :=
  initFhevm_idempotent none (some { config := demoCfg, isInitialized := true }) true demoCfg
    { config := demoCfg, isInitialized := true } rfl true demoCfg

/-- Claim C10: when the health probe actually runs (no ready singleton
exists) and fails, `initFhevm` rejects with the initialization error and
the process-wide singleton — hence `getFhevmClient`'s result — is exactly
what it was before the failed call. -/
theorem initFhevm_probe_failure (g : Option FhevmClient) (cfg : FhevmConfig)
    (hnr : ∀ c, g = some c → c.isInitialized = false) :
    (initFhevm g false cfg).1 =
      Except.error ("Failed to initialize FHEVM SDK: Error: Cannot connect to Gateway at "
        ++ cfg.gatewayUrl) ∧
    (initFhevm g false cfg).2 = g ∧
    getFhevmClient ((initFhevm g false cfg).2) = getFhevmClient g := by
  cases g with
  | none => simp [initFhevm, initFhevmAttempt, getFhevmClient]
  | some c =>
    have hc := hnr c rfl
    simp [initFhevm, initFhevmAttempt, hc, getFhevmClient]

/-- Witness for C10: failed probe with an empty registry. -/
theorem initFhevm_probe_failure_witness :
    (initFhevm none false demoCfg).1 =
      Except.error ("Failed to initialize FHEVM SDK: Error: Cannot connect to Gateway at "
        ++ demoCfg.gatewayUrl) ∧
    (initFhevm none false demoCfg).2 = none ∧
    getFhevmClient ((initFhevm none false demoCfg).2) = getFhevmClient none :=
  initFhevm_probe_failure none demoCfg (fun _ h => nomatch h)

/-- Claim C8 (code bug): invoked outside any provider subtree,
`useFhevmContext` (and `useFhevm` with it) does NOT throw — it returns
the non-null default object `createContext` was given (`client: null`,
`isInitialized: false`), so the `if (!context) throw` guard is dead code
even though its message documents the intent to throw.  Inside a
provider's subtree the hook is a pure read of the published value. -/
theorem useFhevmContext_outside_provider :
    useFhevmContext none = Except.ok
      { client := none, isInitialized := false, isInitializing := false, errorVal := none } ∧
    useFhevm none = Except.ok
      { client := none, isInitialized := false, isInitializing := false, errorVal := none } :=
  ⟨rfl, rfl⟩

end FhevmSdk

namespace Rental

theorem upd_same {α : Type} (f : Nat → α) (k : Nat) (v : α) : upd f k v k = v := by
  simp [upd]

theorem upd_other {α : Type} (f : Nat → α) (k i : Nat) (v : α) (h : i ≠ k) :
    upd f k v i = f i := by
  simp [upd, h]

theorem runTx_of_error (s : State) (f : State → Except String State) (m : String)
    (h : f s = Except.error m) : runTx s f = s := by
  simp [runTx, h]

theorem createListing_ok_iff (s : State) (sender : Address) (ts p b pc pt : Nat) (s' : State) :
    createListing s sender ts p b pc pt = Except.ok s' ↔
      s.isPaused = false ∧ 0 < p ∧ (0 < b ∧ b ≤ 10) ∧ (1 ≤ pt ∧ pt ≤ 3) ∧
      createListingEffect s sender ts p b pc pt = s' := by
  simp only [createListing, solRequire]
  split_ifs with h1 h2 h3 h4 <;> simp_all [Except.ok.injEq]

theorem createRequest_ok_iff (s : State) (sender : Address) (ts mb mbed pc pt : Nat) (s' : State) :
    createRequest s sender ts mb mbed pc pt = Except.ok s' ↔
      s.isPaused = false ∧ 0 < mb ∧ (0 < mbed ∧ mbed ≤ 10) ∧ (1 ≤ pt ∧ pt ≤ 3) ∧
      createRequestEffect s sender ts mb mbed pc pt = s' := by
  simp only [createRequest, solRequire]
  split_ifs with h1 h2 h3 h4 <;> simp_all [Except.ok.injEq]

theorem createMatch_ok_iff (s : State) (sender : Address) (ts lid rid : Nat) (s' : State) :
    createMatch s sender ts lid rid = Except.ok s' ↔
      s.isPaused = false ∧
      (s.listings lid).isActive = true ∧ (s.requests rid).isActive = true ∧
      (s.listings lid).isMatched = false ∧ (s.requests rid).isMatched = false ∧
      (sender = (s.listings lid).landlord ∨ sender = (s.requests rid).tenant) ∧
      createMatchEffect s sender ts lid rid = s' := by
  simp only [createMatch, solRequire]
  split_ifs with h1 h2 h3 h4 h5 h6 <;> simp_all [Except.ok.injEq]

theorem confirmMatch_ok_iff (s : State) (sender : Address) (mid : Nat) (s' : State) :
    confirmMatch s sender mid = Except.ok s' ↔
      s.isPaused = false ∧ (s.matchesMap mid).landlord ≠ 0 ∧
      (s.matchesMap mid).isConfirmed = false ∧
      ((sender = (s.matchesMap mid).landlord ∧
          (s.matchesMap mid).landlordConfirmed = false ∧
          confirmLandlordEffect s sender mid = s') ∨
        (sender ≠ (s.matchesMap mid).landlord ∧ sender = (s.matchesMap mid).tenant ∧
          (s.matchesMap mid).tenantConfirmed = false ∧
          confirmTenantEffect s sender mid = s')) := by
  simp only [confirmMatch, solRequire]
  split_ifs with h1 h2 h3 h4 h5 h6 h7 <;> simp_all [Except.ok.injEq]

end Rental

namespace Rental

theorem inv_deploy (d : Address) (ps : List Address) (k : Nat) : Inv (deploy d ps k) :=
  ⟨fun _ _ => rfl, fun _ _ => rfl, fun _ _ => rfl, fun _ => rfl⟩

theorem inv_step (s s' : State) (hi : Inv s) (hs : Step s s') : Inv s' := by
  obtain ⟨hL, hR, hM, hC⟩ := hi
  cases hs with
  | listing sender ts p b pc pt _ h =>
    obtain ⟨-, -, -, -, heff⟩ := (createListing_ok_iff s sender ts p b pc pt s').mp h
    subst heff
    refine ⟨fun i hi2 => ?_, fun i hi2 => hR i hi2, fun i hi2 => hM i hi2, fun i => hC i⟩
    simp only [createListingEffect] at hi2 ⊢
    rw [upd_other _ _ _ _ (by omega)]
    exact hL i (by omega)
  | request sender ts mb mbed pc pt _ h =>
    obtain ⟨-, -, -, -, heff⟩ := (createRequest_ok_iff s sender ts mb mbed pc pt s').mp h
    subst heff
    refine ⟨fun i hi2 => hL i hi2, fun i hi2 => ?_, fun i hi2 => hM i hi2, fun i => hC i⟩
    simp only [createRequestEffect] at hi2 ⊢
    rw [upd_other _ _ _ _ (by omega)]
    exact hR i (by omega)
  | matched sender ts lid rid _ h =>
    obtain ⟨-, hActL, hActR, -, -, -, heff⟩ := (createMatch_ok_iff s sender ts lid rid s').mp h
    subst heff
    refine ⟨fun i hi2 => ?_, fun i hi2 => ?_, fun i hi2 => ?_, fun i => ?_⟩
    · simp only [createMatchEffect] at hi2 ⊢
      have hne : i ≠ lid := by
        intro hEq
        subst hEq
        rw [hL i hi2] at hActL
        exact absurd hActL (by simp [defaultListing])
      rw [upd_other _ _ _ _ hne]
      exact hL i hi2
    · simp only [createMatchEffect] at hi2 ⊢
      have hne : i ≠ rid := by
        intro hEq
        subst hEq
        rw [hR i hi2] at hActR
        exact absurd hActR (by simp [defaultRequest])
      rw [upd_other _ _ _ _ hne]
      exact hR i hi2
    · simp only [createMatchEffect] at hi2 ⊢
      rw [upd_other _ _ _ _ (by omega)]
      exact hM i (by omega)
    · simp only [createMatchEffect]
      by_cases hik : i = s.matchCounter
      · subst hik
        rw [upd_same]
        rfl
      · rw [upd_other _ _ _ _ hik]
        exact hC i
  | confirm sender mid _ h =>
    obtain ⟨-, hnz, hconf, hbr⟩ := (confirmMatch_ok_iff s sender mid s').mp h
    cases hbr with
    | inl hb =>
      obtain ⟨hsl, hlc, heff⟩ := hb
      subst heff
      refine ⟨fun i hi2 => hL i hi2, fun i hi2 => hR i hi2, fun i hi2 => ?_, fun i => ?_⟩
      · simp only [confirmLandlordEffect] at hi2 ⊢
        have hne : i ≠ mid := by
          intro hEq
          subst hEq
          rw [hM i hi2] at hnz
          exact hnz rfl
        rw [upd_other _ _ _ _ hne]
        exact hM i hi2
      · simp only [confirmLandlordEffect]
        by_cases hik : i = mid
        · subst hik
          rw [upd_same]
          cases htb : (s.matchesMap i).tenantConfirmed <;>
            simp [confirmFlip, htb, hconf]
        · rw [upd_other _ _ _ _ hik]
          exact hC i
    | inr hb =>
      obtain ⟨hne0, hst, htc, heff⟩ := hb
      subst heff
      refine ⟨fun i hi2 => hL i hi2, fun i hi2 => hR i hi2, fun i hi2 => ?_, fun i => ?_⟩
      · simp only [confirmTenantEffect] at hi2 ⊢
        have hne : i ≠ mid := by
          intro hEq
          subst hEq
          rw [hM i hi2] at hnz
          exact hnz rfl
        rw [upd_other _ _ _ _ hne]
        exact hM i hi2
      · simp only [confirmTenantEffect]
        by_cases hik : i = mid
        · subst hik
          rw [upd_same]
          cases hlb : (s.matchesMap i).landlordConfirmed <;>
            simp [confirmFlip, hlb, hconf]
        · rw [upd_other _ _ _ _ hik]
          exact hC i

theorem inv_reachable (s : State) (h : Reachable s) : Inv s := by
  induction h with
  | deploy d ps k => exact inv_deploy d ps k
  | step s s' hr hs ih => exact inv_step s s' ih hs

end Rental

namespace Rental

theorem reach_demoS0 : Reachable demoS0 := Reachable.deploy 100 [] 1

theorem reach_demoS1 : Reachable demoS1 :=
  Reachable.step demoS0 demoS1 reach_demoS0
    (Step.listing demoS0 1 0 2000 2 12345 1 demoS1 rfl)

theorem reach_demoS2 : Reachable demoS2 :=
  Reachable.step demoS1 demoS2 reach_demoS1
    (Step.request demoS1 2 0 2500 2 12345 1 demoS2 rfl)

theorem reach_demoS3 : Reachable demoS3 :=
  Reachable.step demoS2 demoS3 reach_demoS2
    (Step.matched demoS2 1 0 1 1 demoS3 rfl)

theorem reach_demoS4 : Reachable demoS4 :=
  Reachable.step demoS3 demoS4 reach_demoS3
    (Step.confirm demoS3 1 1 demoS4 rfl)

theorem reach_demoS5 : Reachable demoS5 :=
  Reachable.step demoS4 demoS5 reach_demoS4
    (Step.confirm demoS4 2 1 demoS5 rfl)

/-- Claim C3: a second `confirmMatch` by the same party on the same match
always fails; in every reachable state a match's overall-confirmed flag
is true exactly when both per-party confirmation flags are set (and each
flag can only ever be set once, since the second attempt fails); and no
successful transition modifies a confirmed match — `Confirmed` is
terminal. -/
theorem confirmMatch_dual_confirmation :
    (∀ (s : State) (sender : Address) (mid : Nat) (s' : State),
        confirmMatch s sender mid = Except.ok s' →
        ∃ msg, confirmMatch s' sender mid = Except.error msg) ∧
    (∀ s : State, Reachable s → ∀ i,
        (s.matchesMap i).isConfirmed =
          ((s.matchesMap i).landlordConfirmed && (s.matchesMap i).tenantConfirmed)) ∧
    (∀ (s s' : State) (i : Nat), Reachable s → Step s s' →
        (s.matchesMap i).isConfirmed = true → s'.matchesMap i = s.matchesMap i) := by
  refine ⟨?_, ?_, ?_⟩
  · intro s sender mid s' h
    obtain ⟨hp, hnz, hconf, hbr⟩ := (confirmMatch_ok_iff s sender mid s').mp h
    cases hbr with
    | inl hb =>
      obtain ⟨hsl, hlc, heff⟩ := hb
      subst heff
      cases htb : (s.matchesMap mid).tenantConfirmed with
      | true =>
        refine ⟨"Match already confirmed", ?_⟩
        simp [confirmMatch, solRequire, confirmLandlordEffect, confirmFlip, upd_same,
          hp, hnz, htb]
      | false =>
        refine ⟨"Already confirmed by landlord", ?_⟩
        simp [confirmMatch, solRequire, confirmLandlordEffect, confirmFlip, upd_same,
          hp, hnz, htb, hconf, hsl]
    | inr hb =>
      obtain ⟨hnsl, hst, htc, heff⟩ := hb
      subst heff
      cases hlb : (s.matchesMap mid).landlordConfirmed with
      | true =>
        refine ⟨"Match already confirmed", ?_⟩
        simp [confirmMatch, solRequire, confirmTenantEffect, confirmFlip, upd_same,
          hp, hnz, hlb]
      | false =>
        refine ⟨"Already confirmed by tenant", ?_⟩
        rw [hst] at hnsl
        simp [confirmMatch, solRequire, confirmTenantEffect, confirmFlip, upd_same,
          hp, hnz, hlb, hconf, hnsl, hst]
  · exact fun s hr i => (inv_reachable s hr).2.2.2 i
  · intro s s' i hr hs hci
    obtain ⟨hL, hR, hM, hC⟩ := inv_reachable s hr
    cases hs with
    | listing sender ts p b pc pt _ h =>
      obtain ⟨-, -, -, -, heff⟩ := (createListing_ok_iff s sender ts p b pc pt s').mp h
      subst heff
      rfl
    | request sender ts mb mbed pc pt _ h =>
      obtain ⟨-, -, -, -, heff⟩ := (createRequest_ok_iff s sender ts mb mbed pc pt s').mp h
      subst heff
      rfl
    | matched sender ts lid rid _ h =>
      obtain ⟨-, -, -, -, -, -, heff⟩ := (createMatch_ok_iff s sender ts lid rid s').mp h
      subst heff
      simp only [createMatchEffect]
      have hne : i ≠ s.matchCounter := by
        intro hEq
        rw [hEq, hM s.matchCounter (le_refl _)] at hci
        exact absurd hci (by simp [defaultMatch])
      exact upd_other _ _ _ _ hne
    | confirm sender mid _ h =>
      obtain ⟨-, -, hconf, hbr⟩ := (confirmMatch_ok_iff s sender mid s').mp h
      have hne : i ≠ mid := by
        intro hEq
        rw [hEq, hconf] at hci
        exact absurd hci (by simp)
      cases hbr with
      | inl hb =>
        obtain ⟨-, -, heff⟩ := hb
        subst heff
        simp only [confirmLandlordEffect]
        exact upd_other _ _ _ _ hne
      | inr hb =>
        obtain ⟨-, -, -, heff⟩ := hb
        subst heff
        simp only [confirmTenantEffect]
        exact upd_other _ _ _ _ hne

/-- Witness for C3: the landlord's second confirmation fails, the flag
equation holds at the reachable state after the match is created, and a
later step leaves the fully-confirmed match untouched. -/
theorem confirmMatch_dual_confirmation_witness :
    (∃ msg, confirmMatch demoS4 1 1 = Except.error msg) ∧
    ((demoS3.matchesMap 1).isConfirmed =
      ((demoS3.matchesMap 1).landlordConfirmed && (demoS3.matchesMap 1).tenantConfirmed)) ∧
    demoS6.matchesMap 1 = demoS5.matchesMap 1 :=
  ⟨confirmMatch_dual_confirmation.1 demoS3 1 1 demoS4 rfl,
   confirmMatch_dual_confirmation.2.1 demoS3 reach_demoS3 1,
   confirmMatch_dual_confirmation.2.2 demoS5 demoS6 1 reach_demoS5
     (Step.listing demoS5 7 9 1500 3 999 2 demoS6 rfl) rfl⟩

end Rental

namespace Rental

/-- Claim C4: a matched listing or request can never be matched again —
any `createMatch` referencing a matched record fails — and no successful
transition from a reachable state ever resets a matched flag to false
(the flags are monotone). -/
theorem matched_flag_permanent :
    (∀ (s : State) (sender : Address) (ts lid rid : Nat),
        (s.listings lid).isMatched = true ∨ (s.requests rid).isMatched = true →
        ∃ msg, createMatch s sender ts lid rid = Except.error msg) ∧
    (∀ (s s' : State), Reachable s → Step s s' → ∀ i,
        ((s.listings i).isMatched = true → (s'.listings i).isMatched = true) ∧
        ((s.requests i).isMatched = true → (s'.requests i).isMatched = true)) := by
  constructor
  · intro s sender ts lid rid hm
    cases hres : createMatch s sender ts lid rid with
    | error m => exact ⟨m, rfl⟩
    | ok s' =>
      exfalso
      obtain ⟨-, -, -, hml, hmr, -, -⟩ := (createMatch_ok_iff s sender ts lid rid s').mp hres
      cases hm with
      | inl hm => rw [hm] at hml; cases hml
      | inr hm => rw [hm] at hmr; cases hmr
  · intro s s' hr hs i
    obtain ⟨hL, hR, hM, hC⟩ := inv_reachable s hr
    cases hs with
    | listing sender ts p b pc pt _ h =>
      obtain ⟨-, -, -, -, heff⟩ := (createListing_ok_iff s sender ts p b pc pt s').mp h
      subst heff
      refine ⟨fun hm => ?_, fun hm => hm⟩
      simp only [createListingEffect]
      by_cases hik : i = s.listingIdCounter
      · rw [hik, hL s.listingIdCounter (le_refl _)] at hm
        exact absurd hm (by simp [defaultListing])
      · rw [upd_other _ _ _ _ hik]
        exact hm
    | request sender ts mb mbed pc pt _ h =>
      obtain ⟨-, -, -, -, heff⟩ := (createRequest_ok_iff s sender ts mb mbed pc pt s').mp h
      subst heff
      refine ⟨fun hm => hm, fun hm => ?_⟩
      simp only [createRequestEffect]
      by_cases hik : i = s.requestIdCounter
      · rw [hik, hR s.requestIdCounter (le_refl _)] at hm
        exact absurd hm (by simp [defaultRequest])
      · rw [upd_other _ _ _ _ hik]
        exact hm
    | matched sender ts lid rid _ h =>
      obtain ⟨-, -, -, -, -, -, heff⟩ := (createMatch_ok_iff s sender ts lid rid s').mp h
      subst heff
      constructor
      · intro hm
        simp only [createMatchEffect]
        by_cases hik : i = lid
        · rw [hik, upd_same]
        · rw [upd_other _ _ _ _ hik]
          exact hm
      · intro hm
        simp only [createMatchEffect]
        by_cases hik : i = rid
        · rw [hik, upd_same]
        · rw [upd_other _ _ _ _ hik]
          exact hm
    | confirm sender mid _ h =>
      obtain ⟨-, -, -, hbr⟩ := (confirmMatch_ok_iff s sender mid s').mp h
      cases hbr with
      | inl hb =>
        obtain ⟨-, -, heff⟩ := hb
        subst heff
        exact ⟨fun hm => hm, fun hm => hm⟩
      | inr hb =>
        obtain ⟨-, -, -, heff⟩ := hb
        subst heff
        exact ⟨fun hm => hm, fun hm => hm⟩

/-- Witness for C4: once listing 1 is matched (state `demoS3`), a second
`createMatch` referencing it fails, and a later successful step keeps
the matched flag set. -/
theorem matched_flag_permanent_witness :
    (∃ msg, createMatch demoS3 5 0 1 1 = Except.error msg) ∧
    (demoS4.listings 1).isMatched = true :=
  ⟨matched_flag_permanent.1 demoS3 5 0 1 1 (Or.inl rfl),
   (matched_flag_permanent.2 demoS3 demoS4 reach_demoS3
     (Step.confirm demoS3 1 1 demoS4 rfl) 1).1 rfl⟩

end Rental

namespace Rental

/-- Claim C5: in an unpaused state, `createMatch(listing, request)`
succeeds exactly when both referenced records are active (a nonexistent
record is the zero struct, hence inactive) and unmatched and the caller
is the listing's landlord or the request's tenant.  On success it
atomically flips both matched flags, records the new `Match` at the
current counter, emits the `MatchCreated` event, and touches nothing
else; in every other case it reverts with a nonempty reason string and
the transaction leaves the state unchanged. -/
theorem createMatch_spec (s : State) (sender : Address) (ts lid rid : Nat)
    (hp : s.isPaused = false) :
    (((s.listings lid).isActive = true ∧ (s.requests rid).isActive = true ∧
      (s.listings lid).isMatched = false ∧ (s.requests rid).isMatched = false ∧
      (sender = (s.listings lid).landlord ∨ sender = (s.requests rid).tenant)) →
      ∃ s', createMatch s sender ts lid rid = Except.ok s' ∧
        (s'.listings lid).isMatched = true ∧
        (s'.requests rid).isMatched = true ∧
        s'.matchesMap s.matchCounter =
          { listingId := lid, requestId := rid,
            landlord := (s.listings lid).landlord,
            tenant := (s.requests rid).tenant,
            timestamp := ts, isConfirmed := false,
            landlordConfirmed := false, tenantConfirmed := false } ∧
        s'.matchCounter = s.matchCounter + 1 ∧
        s'.events = s.events ++ [Event.matchCreated s.matchCounter lid rid] ∧
        (∀ i, i ≠ lid → s'.listings i = s.listings i) ∧
        (∀ i, i ≠ rid → s'.requests i = s.requests i) ∧
        (∀ i, i ≠ s.matchCounter → s'.matchesMap i = s.matchesMap i) ∧
        s'.listingIdCounter = s.listingIdCounter ∧
        s'.requestIdCounter = s.requestIdCounter ∧
        s'.userListings = s.userListings ∧
        s'.userRequests = s.userRequests ∧
        s'.isPaused = s.isPaused) ∧
    (¬ ((s.listings lid).isActive = true ∧ (s.requests rid).isActive = true ∧
      (s.listings lid).isMatched = false ∧ (s.requests rid).isMatched = false ∧
      (sender = (s.listings lid).landlord ∨ sender = (s.requests rid).tenant)) →
      (∃ msg, createMatch s sender ts lid rid = Except.error msg ∧ msg ≠ "") ∧
      runTx s (fun s0 => createMatch s0 sender ts lid rid) = s) := by
  constructor
  · intro hc
    obtain ⟨h1, h2, h3, h4, h5⟩ := hc
    refine ⟨createMatchEffect s sender ts lid rid,
      (createMatch_ok_iff s sender ts lid rid _).mpr ⟨hp, h1, h2, h3, h4, h5, rfl⟩,
      ?_, ?_, ?_, rfl, rfl, ?_, ?_, ?_, rfl, rfl, rfl, rfl, rfl⟩
    · simp [createMatchEffect, upd_same]
    · simp [createMatchEffect, upd_same]
    · simp [createMatchEffect, upd_same]
    · intro i hi
      simp only [createMatchEffect]
      exact upd_other _ _ _ _ hi
    · intro i hi
      simp only [createMatchEffect]
      exact upd_other _ _ _ _ hi
    · intro i hi
      simp only [createMatchEffect]
      exact upd_other _ _ _ _ hi
  · intro hnc
    cases hres : createMatch s sender ts lid rid with
    | ok s' =>
      exfalso
      obtain ⟨-, h1, h2, h3, h4, h5, -⟩ := (createMatch_ok_iff s sender ts lid rid s').mp hres
      exact hnc ⟨h1, h2, h3, h4, h5⟩
    | error m =>
      have hm : m ≠ "" := by
        simp only [createMatch, solRequire] at hres
        split_ifs at hres <;> (try simp only [Except.error.injEq] at hres) <;>
          first
            | exact absurd hres (fun hq => Except.noConfusion hq)
            | (rw [← hres]; decide)
      exact ⟨⟨m, rfl, hm⟩, runTx_of_error s _ m hres⟩

/-- Witness for C5: in `demoS3` listing 1 is already matched, so a fresh
`createMatch(1, 1)` reverts with a nonempty reason and changes nothing. -/
theorem createMatch_spec_witness :
    (∃ msg, createMatch demoS3 1 0 1 1 = Except.error msg ∧ msg ≠ "") ∧
    runTx demoS3 (fun s0 => createMatch s0 1 0 1 1) = demoS3 :=
  (createMatch_spec demoS3 1 0 1 1 rfl).2 (fun hc => absurd hc.2.2.1 (by decide))

end Rental

namespace Rental

/-- Claim C6: with the pause flag set, `createListing`, `createRequest`
and `createMatch` all revert with `Contract is paused` (so no state
changes), while the four read-only queries are insensitive to the pause
flag; with the flag clear, none of the three creations can fail with the
pause message — the pause check never blocks them. -/
theorem pause_gating (s : State) :
    (s.isPaused = true →
      (∀ (sender : Address) (ts p b pc pt : Nat),
          createListing s sender ts p b pc pt = Except.error "Contract is paused") ∧
      (∀ (sender : Address) (ts mb mbed pc pt : Nat),
          createRequest s sender ts mb mbed pc pt = Except.error "Contract is paused") ∧
      (∀ (sender : Address) (ts lid rid : Nat),
          createMatch s sender ts lid rid = Except.error "Contract is paused")) ∧
    (∀ (b : Bool) (u : Address),
        getUserListings { s with isPaused := b } u = getUserListings s u ∧
        getUserRequests { s with isPaused := b } u = getUserRequests s u ∧
        getActiveListingsCount { s with isPaused := b } = getActiveListingsCount s ∧
        getActiveRequestsCount { s with isPaused := b } = getActiveRequestsCount s) ∧
    (s.isPaused = false →
      (∀ (sender : Address) (ts p b pc pt : Nat),
          createListing s sender ts p b pc pt ≠ Except.error "Contract is paused") ∧
      (∀ (sender : Address) (ts mb mbed pc pt : Nat),
          createRequest s sender ts mb mbed pc pt ≠ Except.error "Contract is paused") ∧
      (∀ (sender : Address) (ts lid rid : Nat),
          createMatch s sender ts lid rid ≠ Except.error "Contract is paused")) := by
  refine ⟨?_, fun b u => ⟨rfl, rfl, rfl, rfl⟩, ?_⟩
  · intro hp
    refine ⟨fun sender ts p b pc pt => ?_, fun sender ts mb mbed pc pt => ?_,
      fun sender ts lid rid => ?_⟩ <;>
      simp [createListing, createRequest, createMatch, solRequire, hp]
  · intro hp
    refine ⟨fun sender ts p b pc pt => ?_, fun sender ts mb mbed pc pt => ?_,
      fun sender ts lid rid => ?_⟩
    · simp only [createListing, solRequire]
      rw [if_pos hp]
      split_ifs <;> simp
    · simp only [createRequest, solRequire]
      rw [if_pos hp]
      split_ifs <;> simp
    · simp only [createMatch, solRequire]
      rw [if_pos hp]
      split_ifs <;> simp

/-- Witness for C6 at the pause-forced state `demoPaused` and the
unpaused state `demoS2`. -/
theorem pause_gating_witness :
    createListing demoPaused 5 0 1000 2 123 1 = Except.error "Contract is paused" ∧
    getUserListings { demoS2 with isPaused := true } 1 = getUserListings demoS2 1 ∧
    createListing demoS2 5 0 1000 2 123 1 ≠ Except.error "Contract is paused" :=
  ⟨((pause_gating demoPaused).1 rfl).1 5 0 1000 2 123 1,
   ((pause_gating demoS2).2.1 true 1).1,
   ((pause_gating demoS2).2.2 rfl).1 5 0 1000 2 123 1⟩

/-- Claim C9: `createListing` with a bedroom count of 0 or above 10, or a
property-type tag outside 1..3, reverts and creates nothing; likewise
`createRequest` for its minimum-bedrooms and preferred-type arguments. -/
theorem creation_bounds (s : State) (sender : Address) (ts amount b pc pt : Nat)
    (hbad : b = 0 ∨ 10 < b ∨ pt < 1 ∨ 3 < pt) :
    (∃ msg, createListing s sender ts amount b pc pt = Except.error msg) ∧
    runTx s (fun s0 => createListing s0 sender ts amount b pc pt) = s ∧
    (∃ msg, createRequest s sender ts amount b pc pt = Except.error msg) ∧
    runTx s (fun s0 => createRequest s0 sender ts amount b pc pt) = s := by
  have hl : ∃ msg, createListing s sender ts amount b pc pt = Except.error msg := by
    simp only [createListing, solRequire]
    split_ifs with h1 h2 h3 h4
    · exact absurd hbad (by omega)
    all_goals exact ⟨_, rfl⟩
  have hr : ∃ msg, createRequest s sender ts amount b pc pt = Except.error msg := by
    simp only [createRequest, solRequire]
    split_ifs with h1 h2 h3 h4
    · exact absurd hbad (by omega)
    all_goals exact ⟨_, rfl⟩
  obtain ⟨m1, hm1⟩ := hl
  obtain ⟨m2, hm2⟩ := hr
  exact ⟨⟨m1, hm1⟩, runTx_of_error s _ m1 hm1, ⟨m2, hm2⟩, runTx_of_error s _ m2 hm2⟩

/-- Witness for C9: bedroom count 0 is rejected by both creations. -/
theorem creation_bounds_witness :
    (∃ msg, createListing demoS0 5 0 1000 0 123 1 = Except.error msg) ∧
    runTx demoS0 (fun s0 => createListing s0 5 0 1000 0 123 1) = demoS0 ∧
    (∃ msg, createRequest demoS0 5 0 1000 0 123 1 = Except.error msg) ∧
    runTx demoS0 (fun s0 => createRequest s0 5 0 1000 0 123 1) = demoS0 :=
  creation_bounds demoS0 5 0 1000 0 123 1 (Or.inl rfl)

end Rental
